import Mathlib

/-!
Shallow embedding of the trading decision and risk engine of the Scrapy
repository (src/scrapy/trading/...), restricted to the parts the verified
claims are about.  All Python floats are modelled as rationals; the database
lookups of the source (latest mark price per crypto id, list of currently
open trades) are passed in as explicit arguments.  Python None values are
modelled with Option.
-/

/- Enumerations from src/scrapy/core/enums.py. -/

inductive TakeStop where
  | TakeProfit
  | StopLoss
  | Hold
deriving DecidableEq

inductive LongShort where
  | EnterLong
  | EnterShort
  | NoTrade
deriving DecidableEq

/- Trading configuration constants from src/scrapy/config/settings.py. -/

def INITIAL_CAPITAL : ℚ := 10000
def MAX_DAILY_LOSS_PERCENT : ℚ := 2
def MAX_DRAWDOWN_PERCENT : ℚ := 20
def MAX_CORRELATION_EXPOSURE : ℚ := 0.7
def ENTRY_SCORE_THRESHOLD_LONG : ℚ := 0.55
def ENTRY_SCORE_THRESHOLD_SHORT : ℚ := -0.55

def RSI_OVERSOLD_EXTREME : ℚ := 35
def RSI_OVERBOUGHT_EXTREME : ℚ := 65
def RSI_OVERSOLD_MODERATE : ℚ := 42
def RSI_OVERBOUGHT_MODERATE : ℚ := 58

def VOLATILITY_LOW_THRESHOLD : ℚ := 2
def VOLATILITY_HIGH_THRESHOLD : ℚ := 5

def RISK_HIGH_CONFIDENCE : ℚ := 0.02
def RISK_MEDIUM_CONFIDENCE : ℚ := 0.015
def RISK_LOW_CONFIDENCE : ℚ := 0.01

/-- TECHNICAL_WEIGHTS dictionary from settings.py. -/
structure TechnicalWeights where
  ema : ℚ
  macd : ℚ
  rsi : ℚ
  sma : ℚ
  volatility : ℚ
  pivot : ℚ
  fibo : ℚ

def TECHNICAL_WEIGHTS : TechnicalWeights :=
  { ema := 0.22, macd := 0.22, rsi := 0.13, sma := 0.09,
    volatility := 0.20, pivot := 0.07, fibo := 0.07 }

/-
Technical signal scoring,
src/scrapy/trading/SignalLayer/Technical_signal_scoring.py.
-/

/-- TechnicalSignalScoring._to_float: None is coerced to 0.0. -/
def _to_float (value : Option ℚ) : ℚ :=
  match value with
  | none => 0
  | some x => x

/-- TechnicalSignalScoring.RSITiming. -/
def RSITiming (rsi_values : Option ℚ) : ℚ :=
  let r := _to_float rsi_values
  if r ≤ RSI_OVERSOLD_EXTREME then 1
  else if r ≥ RSI_OVERBOUGHT_EXTREME then -1
  else if r ≤ RSI_OVERSOLD_MODERATE then 0.5
  else if r ≥ RSI_OVERBOUGHT_MODERATE then -0.5
  else 0

/-- TechnicalSignalScoring.MACDTiming. -/
def MACDTiming (macd_value_j signal_value_j macd_value_h signal_value_h
    histogram_value hist_norm : Option ℚ) : ℚ :=
  let mj := _to_float macd_value_j
  let sj := _to_float signal_value_j
  let mh := _to_float macd_value_h
  let sh := _to_float signal_value_h
  let hv := _to_float histogram_value
  let hn := _to_float hist_norm
  let macd_j_score : ℚ := if mj > sj then 1 else -1
  let macd_h_score : ℚ := if mh > sh then 0.5 else -0.5
  let hist_score : ℚ :=
    if hv > 0 ∧ hn ≠ 0 then min (hv / hn) 1
    else if hn ≠ 0 then max (hv / hn) (-1)
    else 0
  macd_j_score + macd_h_score + hist_score

/-- TechnicalSignalScoring.ema50200Timing. -/
def ema50200Timing (ema_50 ema_200 price : Option ℚ) : ℚ :=
  let e50 := _to_float ema_50
  let e200 := _to_float ema_200
  let p := _to_float price
  if e50 > e200 ∧ p > e50 then 1
  else if e50 < e200 ∧ p < e50 then -1
  else if e50 > e200 then 0.5
  else if e50 < e200 then -0.5
  else 0

/-- TechnicalSignalScoring.PivotSupportResistanceTiming. -/
def PivotSupportResistanceTiming (price r1 s1 pivot_points : Option ℚ) : ℚ :=
  let p := _to_float price
  let r := _to_float r1
  let s := _to_float s1
  let pp := _to_float pivot_points
  if p > r then -0.5
  else if p < s then 0.5
  else if p > pp then 0.25
  else -0.25

/-- TechnicalSignalScoring.fibonacciTiming. -/
def fibonacciTiming (price fibo_382 fibo_618 : Option ℚ) : ℚ :=
  let p := _to_float price
  let f382 := _to_float fibo_382
  let f618 := _to_float fibo_618
  if p < f382 then 0.5
  else if p > f618 then -0.5
  else 0

/-- TechnicalSignalScoring.sma50200Timing; the Python chained comparison
price > sma50 > sma200 is the conjunction of the two comparisons. -/
def sma50200Timing (sma_50 sma_200 price : Option ℚ) : ℚ :=
  let s50 := _to_float sma_50
  let s200 := _to_float sma_200
  let p := _to_float price
  if p > s50 ∧ s50 > s200 then 1
  else if p < s50 ∧ s50 < s200 then -1
  else 0

/-- TechnicalSignalScoring.volatilityTiming. -/
def volatilityTiming (d1_percentage d7_percentage d14_percentage
    volume_actuel volume_moyen_7j : Option ℚ) : ℚ :=
  let d1_pct := |_to_float d1_percentage|
  let d7_pct := |_to_float d7_percentage|
  let d14_pct := |_to_float d14_percentage|
  let vol_actuel := _to_float volume_actuel
  let vol_moyen_7j := _to_float volume_moyen_7j
  let volatility_score := 0.5 * d1_pct + 0.3 * d7_pct + 0.2 * d14_pct
  let volume_ratio := if vol_moyen_7j > 0 then vol_actuel / vol_moyen_7j else 1
  let smart_volatility := d1_pct * volume_ratio
  let combined_volatility := 0.6 * volatility_score + 0.4 * smart_volatility
  let score :=
    if combined_volatility < VOLATILITY_LOW_THRESHOLD then
      combined_volatility / VOLATILITY_LOW_THRESHOLD - 1
    else if combined_volatility < VOLATILITY_HIGH_THRESHOLD then
      (combined_volatility - VOLATILITY_LOW_THRESHOLD) /
        (VOLATILITY_HIGH_THRESHOLD - VOLATILITY_LOW_THRESHOLD)
    else
      min 1 (0.5 + (combined_volatility - VOLATILITY_HIGH_THRESHOLD) / 10)
  max (min score 1) (-1)

/-- TechnicalSignalScoring.compute_technical_score: weighted sum of the seven
sub-scores, clamped to the closed interval from -1 to 1. -/
def compute_technical_score (price rsi_values macd_value_j signal_value_j
    macd_value_h signal_value_h histogram_value hist_norm ema_50 ema_200
    sma_50 sma_200 r1 s1 pivot_points fibo_382 fibo_618
    d1_percentage d7_percentage d14_percentage
    volume_actuel volume_moyen_7j : Option ℚ) : ℚ :=
  let rsi_score := RSITiming rsi_values
  let macd_score := MACDTiming macd_value_j signal_value_j macd_value_h
    signal_value_h histogram_value hist_norm
  let ema_score := ema50200Timing ema_50 ema_200 price
  let sma_score := sma50200Timing sma_50 sma_200 price
  let pivot_score := PivotSupportResistanceTiming price r1 s1 pivot_points
  let fibo_score := fibonacciTiming price fibo_382 fibo_618
  let volatility_score := volatilityTiming d1_percentage d7_percentage
    d14_percentage volume_actuel volume_moyen_7j
  let weighted_score :=
    ema_score * TECHNICAL_WEIGHTS.ema +
    macd_score * TECHNICAL_WEIGHTS.macd +
    rsi_score * TECHNICAL_WEIGHTS.rsi +
    sma_score * TECHNICAL_WEIGHTS.sma +
    volatility_score * TECHNICAL_WEIGHTS.volatility +
    pivot_score * TECHNICAL_WEIGHTS.pivot +
    fibo_score * TECHNICAL_WEIGHTS.fibo
  max (min weighted_score 1) (-1)

/-
Stop-loss / take-profit logic,
src/scrapy/trading/DecisionLayer/Stop_tp_logic.py.
-/

/-- StopTpLogic.check_price_crypto.  The database lookup
get_last_crypto_price(crypto_id) is passed in as the last_price argument
(None when no mark price is available). -/
def check_price_crypto (entry_price : ℚ) (direction : ℤ)
    (take_profit_pct stop_loss_pct : ℚ) (last_price : Option ℚ) :
    TakeStop × ℚ × ℚ :=
  match last_price with
  | none => (TakeStop.Hold, 0, 0)
  | some last_price =>
    let tp_price :=
      if direction = 1 then entry_price * (1 + take_profit_pct / 100)
      else entry_price * (1 - take_profit_pct / 100)
    let sl_price :=
      if direction = 1 then entry_price * (1 - stop_loss_pct / 100)
      else entry_price * (1 + stop_loss_pct / 100)
    if (direction = 1 ∧ last_price ≥ tp_price) ∨
        (direction = -1 ∧ last_price ≤ tp_price) then
      (TakeStop.TakeProfit, last_price - entry_price, last_price)
    else if (direction = 1 ∧ last_price ≤ sl_price) ∨
        (direction = -1 ∧ last_price ≥ sl_price) then
      (TakeStop.StopLoss, entry_price - last_price, last_price)
    else
      (TakeStop.Hold, 0, last_price)

/-- One row of the current-trades table, as read by
StopTpLogic.check_all_current_trades. -/
structure TradeRow where
  id_trade : ℤ
  crypto_id : ℤ
  entry_price : ℚ
  direction : ℤ
  take_profit_1 : ℚ
  stop_loss_1 : ℚ
  status_1 : ℤ
  take_profit_2 : ℚ
  stop_loss_2 : ℚ
  status_2 : ℤ
  runner : Option ℚ
  status : ℤ
deriving DecidableEq

/-- One entry of the result list of check_all_current_trades. -/
structure TriggerResult where
  trade_id : ℤ
  take_profit_number : ℤ
  action : TakeStop
  profit_loss : ℚ
  last_price : ℚ
deriving DecidableEq

/-- Body of the per-trade loop of StopTpLogic.check_all_current_trades:
leg 1 (if status_1 == 0), leg 2 (if status_2 == 0), then the runner leg
(if runner is not None and status == 0), the runner being checked with
stop_loss_pct = 0. -/
def check_trade (priceOf : ℤ → Option ℚ) (trade : TradeRow) :
    List TriggerResult :=
  (if trade.status_1 = 0 then
    let r := check_price_crypto trade.entry_price trade.direction
      trade.take_profit_1 trade.stop_loss_1 (priceOf trade.crypto_id)
    if r.1 ≠ TakeStop.Hold then
      [⟨trade.id_trade, 1, r.1, r.2.1, r.2.2⟩]
    else []
  else []) ++
  (if trade.status_2 = 0 then
    let r := check_price_crypto trade.entry_price trade.direction
      trade.take_profit_2 trade.stop_loss_2 (priceOf trade.crypto_id)
    if r.1 ≠ TakeStop.Hold then
      [⟨trade.id_trade, 2, r.1, r.2.1, r.2.2⟩]
    else []
  else []) ++
  (match trade.runner with
  | none => []
  | some runner_pct =>
    if trade.status = 0 then
      let r := check_price_crypto trade.entry_price trade.direction
        runner_pct 0 (priceOf trade.crypto_id)
      if r.1 ≠ TakeStop.Hold then
        [⟨trade.id_trade, 3, r.1, r.2.1, r.2.2⟩]
      else []
    else [])

/-- StopTpLogic.check_all_current_trades over an explicit list of open
trades and an explicit latest-mark-price lookup. -/
def check_all_current_trades (trades : List TradeRow)
    (priceOf : ℤ → Option ℚ) : List TriggerResult :=
  (trades.map (check_trade priceOf)).flatten

/-
Position sizing, src/scrapy/trading/DecisionLayer/Entry_logic.py.
-/

/-- Result dictionary of EntryLogic.position_sizing.  The direction value is
either a LongShort enum member or the raw string "NO-TRADE" (the final else
branch of the source returns the string, not the enum). -/
structure PositionSizingResult where
  direction : Sum LongShort String
  risk_pct : ℚ
  position_size : ℚ

def MIN_STOP_DISTANCE : ℚ := 0.005

/-- Tail of EntryLogic.position_sizing shared by the long and short tiers:
floor the stop distance at MIN_STOP_DISTANCE, size the position as
capital * risk_pct / stop_distance_pct, and cap it at capital * 0.10. -/
def position_sizing_tail (capital : ℚ) (direction : Sum LongShort String)
    (risk_pct stop_distance_pct : ℚ) : PositionSizingResult :=
  let stop :=
    if stop_distance_pct < MIN_STOP_DISTANCE then MIN_STOP_DISTANCE
    else stop_distance_pct
  let position_size := capital * risk_pct / stop
  let max_position_size := capital * 0.10
  if position_size > max_position_size then
    ⟨direction, risk_pct, max_position_size⟩
  else
    ⟨direction, risk_pct, position_size⟩

/-- EntryLogic.position_sizing. -/
def position_sizing (capital final_score : ℚ) (MR : LongShort)
    (stop_distance_pct : ℚ) : PositionSizingResult :=
  if ENTRY_SCORE_THRESHOLD_SHORT < final_score ∧
      final_score < ENTRY_SCORE_THRESHOLD_LONG then
    ⟨Sum.inl LongShort.NoTrade, 0, 0⟩
  else if final_score ≥ 0.55 ∧ MR = LongShort.EnterLong then
    let risk_pct :=
      if 0.55 ≤ final_score ∧ final_score < 0.70 then RISK_LOW_CONFIDENCE
      else if 0.70 ≤ final_score ∧ final_score < 0.85 then
        RISK_MEDIUM_CONFIDENCE
      else RISK_HIGH_CONFIDENCE
    position_sizing_tail capital (Sum.inl LongShort.EnterLong) risk_pct
      stop_distance_pct
  else if final_score ≤ -0.55 ∧ MR = LongShort.EnterShort then
    let risk_pct :=
      if -0.70 < final_score ∧ final_score ≤ -0.55 then RISK_LOW_CONFIDENCE
      else if -0.85 < final_score ∧ final_score ≤ -0.70 then
        RISK_MEDIUM_CONFIDENCE
      else RISK_HIGH_CONFIDENCE
    position_sizing_tail capital (Sum.inl LongShort.EnterShort) risk_pct
      stop_distance_pct
  else
    ⟨Sum.inr "NO-TRADE", 0, 0⟩

/-
Max drawdown control, src/scrapy/trading/RiskLayer/Max_drawdown_controle.py.
-/

/-- Mutable state of the MaxDrawdownControl class. -/
structure MaxDrawdownControl where
  initial_capital : ℚ
  max_drawdown_percent : ℚ
  peak_capital : ℚ
deriving DecidableEq

/-- MaxDrawdownControl.calculate_drawdown: returns the updated state and the
exceeded flag. -/
def calculate_drawdown (s : MaxDrawdownControl) (current_capital : ℚ) :
    MaxDrawdownControl × Bool :=
  let peak :=
    if current_capital > s.peak_capital then current_capital
    else s.peak_capital
  let drawdown_amount := peak - current_capital
  let drawdown_percent :=
    if peak > 0 then drawdown_amount / peak * 100 else 0
  (⟨s.initial_capital, s.max_drawdown_percent, peak⟩,
    if drawdown_percent ≥ s.max_drawdown_percent then true else false)

/-
Daily loss limit, src/scrapy/trading/RiskLayer/Daily_loss_limit.py.
-/

/-- Trade fields read by DailyLossLimit.calculate_trade_pnl. -/
structure DLTrade where
  entry_price : ℚ
  position_size : ℚ
  direction : ℤ
  crypto_id : ℤ
deriving DecidableEq

/-- DailyLossLimit.calculate_trade_pnl; the database lookup
get_last_crypto_price is the priceOf argument. -/
def calculate_trade_pnl (priceOf : ℤ → Option ℚ) (trade : DLTrade) : ℚ :=
  match priceOf trade.crypto_id with
  | none => 0
  | some current_price =>
    if trade.direction = 1 then
      (current_price - trade.entry_price) * trade.position_size
    else
      (trade.entry_price - current_price) * trade.position_size

/-- DailyLossLimit.get_daily_loss on a cache miss: sum of the negative
unrealized P&L values over all open trades (the per-date cache only
memoizes this value within one calendar day). -/
def get_daily_loss (trades : List DLTrade) (priceOf : ℤ → Option ℚ) : ℚ :=
  trades.foldl (fun total_pnl trade =>
    let pnl := calculate_trade_pnl priceOf trade
    if pnl < 0 then total_pnl + pnl else total_pnl) 0

/-- Result dictionary of DailyLossLimit.can_trade. -/
structure CanTradeResult where
  can_trade : Bool
  current_loss : ℚ
  remaining_allowance : ℚ
  max_daily_loss : ℚ
deriving DecidableEq

/-- DailyLossLimit.can_trade. -/
def can_trade (max_daily_loss : ℚ) (trades : List DLTrade)
    (priceOf : ℤ → Option ℚ) : CanTradeResult :=
  let current_loss := |get_daily_loss trades priceOf|
  let remaining_allowance := max_daily_loss - current_loss
  ⟨if current_loss < max_daily_loss then true else false,
    current_loss, max 0 remaining_allowance, max_daily_loss⟩

/-
Correlation exposure, src/scrapy/trading/RiskLayer/Correlation_exposure.py.
-/

/-- Arithmetic mean of a list of rationals. -/
def lmean (xs : List ℚ) : ℚ := xs.sum / (xs.length : ℚ)

/-- Sum of products of deviations from the means (unnormalized covariance;
the normalization by the length cancels in the correlation coefficient). -/
def scov (xs ys : List ℚ) : ℚ :=
  (List.zipWith (fun a b => (a - lmean xs) * (b - lmean ys)) xs ys).sum

/-- Unnormalized variance: sum of squared deviations from the mean. -/
def svar (xs : List ℚ) : ℚ := scov xs xs

/-- Off-diagonal entry of numpy.corrcoef for two equal-length series: the
Pearson correlation coefficient, covariance divided by the product of the
standard deviations. -/
noncomputable def np_corrcoef (xs ys : List ℚ) : ℝ :=
  (scov xs ys : ℝ) / Real.sqrt ((svar xs : ℝ) * (svar ys : ℝ))

/-- CorrelationExposure.calculate_correlation: 0.0 when either series has
fewer than 2 points; series of unequal length are right-aligned and
truncated to the shorter length (Python prices[-min_len:]); the source
returns the absolute value of the corrcoef entry. -/
noncomputable def calculate_correlation (prices1 prices2 : List ℚ) : ℝ :=
  if prices1.length < 2 ∨ prices2.length < 2 then 0
  else
    let min_len := min prices1.length prices2.length
    let q1 :=
      if prices1.length ≠ prices2.length then
        prices1.drop (prices1.length - min_len)
      else prices1
    let q2 :=
      if prices1.length ≠ prices2.length then
        prices2.drop (prices2.length - min_len)
      else prices2
    |np_corrcoef q1 q2|

/-
Concrete inputs used by the witnesses and scenario checks below.
-/

/-- A trade whose first two legs are already closed and whose runner leg is
still open: only the runner is evaluated, with stop_loss_pct = 0. -/
def runner_trade : TradeRow :=
  ⟨5, 9, 100, 1, 1.2, 0.6, 1, 2.5, 0.6, 1, some 1.2, 0⟩

/-- A fully open trade, used to check that a missing mark price skips the
whole exit check. -/
def open_trade : TradeRow :=
  ⟨1, 7, 100, 1, 1.2, 0.6, 0, 2.5, 0.6, 0, some 5, 0⟩

/-- Three open long trades of size 1 at entry 100 on cryptos 1, 2, 3. -/
def scenario_trades : List DLTrade :=
  [⟨100, 1, 1, 1⟩, ⟨100, 1, 1, 2⟩, ⟨100, 1, 1, 3⟩]

/-- Latest prices 50, 20, 10 for cryptos 1, 2, 3: mark-to-market P&L of the
three scenario trades is -50, -80, -90. -/
def scenario_price : ℤ → Option ℚ := fun crypto_id =>
  if crypto_id = 1 then some 50
  else if crypto_id = 2 then some 20
  else if crypto_id = 3 then some 10
  else none

/-
Theorems settling the claims.
-/

/-- C9: for a Long trade with entry price 100, take_profit_pct 1.2 and
stop_loss_pct 0.6, a latest price of 101.3 reaches the take-profit level
entry * (1 + tp_pct / 100) = 101.2, and check_price_crypto returns
TakeProfit with profit 1.3. -/
theorem check_price_crypto_tp_scenario :
    check_price_crypto 100 1 1.2 0.6 (some 101.3) =
      (TakeStop.TakeProfit, 1.3, 101.3) := by
  norm_num [check_price_crypto]

/-- C1: the claim that the realized P&L returned for a triggered leg equals
(exit - entry) * direction * position_size_fraction fails on the code.  On a
Long stop-loss at exit 99 from entry 100 the code returns +1 while the
claimed formula gives (99 - 100) * 1 * f = -f for every fraction f, already
-1 at f = 1; on a winning Short take-profit at exit 98.8 the code returns
-1.2 while the claimed formula gives (98.8 - 100) * (-1) * 1 = +1.2.  The
code returns last - entry on TakeProfit and entry - last on StopLoss,
ignoring both the direction and the position size. -/
theorem check_price_crypto_pnl_ignores_direction :
    check_price_crypto 100 1 1.2 0.6 (some 99) =
      (TakeStop.StopLoss, 1, 99) ∧
    ((99 - 100) * 1 * 1 : ℚ) = -1 ∧ (1 : ℚ) ≠ -1 ∧
    check_price_crypto 100 (-1) 1.2 0.6 (some 98.8) =
      (TakeStop.TakeProfit, -1.2, 98.8) ∧
    ((98.8 - 100) * (-1) * 1 : ℚ) = 1.2 ∧ (-1.2 : ℚ) ≠ 1.2 := by
  refine ⟨?_, by norm_num, by norm_num, ?_, by norm_num, by norm_num⟩ <;>
    norm_num [check_price_crypto]

/-- C2: the claim that with stop_loss_pct = 0 the stop branch of
check_price_crypto is unreachable fails on the code.  With sl_pct = 0 the
stop price equals the entry price, so for a Long runner any latest price at
or below entry that misses the take-profit triggers StopLoss: at entry 100,
runner tp_pct 1.2 and latest price 99 the code returns StopLoss with
profit_loss 1, and check_all_current_trades emits that trigger for the
runner leg (take_profit_number 3). -/
theorem runner_stop_branch_reachable :
    check_price_crypto 100 1 1.2 0 (some 99) =
      (TakeStop.StopLoss, 1, 99) ∧
    check_all_current_trades [runner_trade] (fun _ => some 99) =
      [⟨5, 3, TakeStop.StopLoss, 1, 99⟩] := by
  have h1 : check_price_crypto 100 1 1.2 0 (some 99) =
      (TakeStop.StopLoss, 1, 99) := by
    norm_num [check_price_crypto]
  refine ⟨h1, ?_⟩
  simp [check_all_current_trades, check_trade, runner_trade, h1]

/-- C8: when the latest mark price for the trade's asset is unavailable,
check_price_crypto returns Hold with 0.0 profit for every entry price,
direction and percentage pair, and check_all_current_trades emits no
trigger for such a trade, so no leg status is updated. -/
theorem missing_price_skips_exit_check :
    (∀ (entry_price : ℚ) (direction : ℤ) (tp sl : ℚ),
      check_price_crypto entry_price direction tp sl none =
        (TakeStop.Hold, 0, 0)) ∧
    (∀ (t : TradeRow) (priceOf : ℤ → Option ℚ),
      priceOf t.crypto_id = none →
      check_all_current_trades [t] priceOf = []) := by
  constructor
  · intro entry_price direction tp sl
    rfl
  · intro t priceOf h
    obtain ⟨idt, cid, ep, dir, tp1, sl1, s1, tp2, sl2, s2, run, st⟩ := t
    simp only [TradeRow.crypto_id] at h
    cases run <;>
      simp [check_all_current_trades, check_trade, check_price_crypto, h]

/-- C8 witness: a concrete fully open trade and a price lookup with no mark
price for its asset: the exit check is skipped entirely. -/
theorem missing_price_skips_exit_check_witness :
    ((fun _ : ℤ => (none : Option ℚ)) open_trade.crypto_id = none) ∧
    check_all_current_trades [open_trade] (fun _ => none) = [] :=
  ⟨rfl, missing_price_skips_exit_check.2 open_trade (fun _ => none) rfl⟩

/-- C10: a missing RSI value is coerced to 0.0 by _to_float, which lies in
the extreme-oversold band (at most 35), so RSITiming returns the maximal
bullish sub-score 1.0 rather than the neutral score 0. -/
theorem RSITiming_none_is_extreme_oversold :
    _to_float none = 0 ∧ _to_float none ≤ RSI_OVERSOLD_EXTREME ∧
    RSITiming none = 1 ∧ RSITiming none ≠ 0 := by
  refine ⟨rfl, by norm_num [_to_float, RSI_OVERSOLD_EXTREME], ?_, ?_⟩ <;>
    norm_num [RSITiming, _to_float, RSI_OVERSOLD_EXTREME]

/-- C3: for every input tuple of indicator values, None included,
compute_technical_score returns a value in the closed interval from -1
to 1 (the final clamp of the weighted sum guarantees both bounds). -/
theorem compute_technical_score_bounded (price rsi_values macd_value_j
    signal_value_j macd_value_h signal_value_h histogram_value hist_norm
    ema_50 ema_200 sma_50 sma_200 r1 s1 pivot_points fibo_382 fibo_618
    d1_percentage d7_percentage d14_percentage
    volume_actuel volume_moyen_7j : Option ℚ) :
    -1 ≤ compute_technical_score price rsi_values macd_value_j signal_value_j
        macd_value_h signal_value_h histogram_value hist_norm ema_50 ema_200
        sma_50 sma_200 r1 s1 pivot_points fibo_382 fibo_618 d1_percentage
        d7_percentage d14_percentage volume_actuel volume_moyen_7j ∧
    compute_technical_score price rsi_values macd_value_j signal_value_j
        macd_value_h signal_value_h histogram_value hist_norm ema_50 ema_200
        sma_50 sma_200 r1 s1 pivot_points fibo_382 fibo_618 d1_percentage
        d7_percentage d14_percentage volume_actuel volume_moyen_7j ≤ 1 := by
  constructor
  · exact le_max_right _ _
  · exact max_le (min_le_right _ _) (by norm_num)

/-- Helper for C4: whatever direction and risk tier reach the sizing tail,
the returned position size never exceeds capital * 0.10. -/
theorem position_sizing_tail_le (capital : ℚ)
    (direction : Sum LongShort String) (risk_pct stop_distance_pct : ℚ) :
    (position_sizing_tail capital direction risk_pct
        stop_distance_pct).position_size ≤ capital * 0.10 := by
  simp only [position_sizing_tail]
  split_ifs with h1 h2 h2 <;> simp only [] <;> first
    | exact le_refl _
    | exact le_of_not_lt (by exact h2)

/-- C4: for every nonnegative capital and every final score, direction and
caller-supplied stop distance, the position size returned by
position_sizing is at most capital * 0.10 (MAX_POSITION_FRACTION). -/
theorem position_sizing_capped (capital final_score : ℚ) (MR : LongShort)
    (stop_distance_pct : ℚ) (h : 0 ≤ capital) :
    (position_sizing capital final_score MR
        stop_distance_pct).position_size ≤ capital * 0.10 := by
  have hz : (0 : ℚ) ≤ capital * 0.10 := by
    have : (0 : ℚ) ≤ (0.10 : ℚ) := by norm_num
    exact mul_nonneg h this
  simp only [position_sizing]
  split_ifs <;> first
    | exact hz
    | exact position_sizing_tail_le _ _ _ _

/-- C4 witness: with capital 1000, final score 0.9 on an EnterLong regime
and stop distance 0.02, the uncapped size 1000 * 0.02 / 0.02 = 1000 is
capped to at most 1000 * 0.10 = 100. -/
theorem position_sizing_capped_witness :
    (0 : ℚ) ≤ 1000 ∧
    (position_sizing 1000 0.9 LongShort.EnterLong
        0.02).position_size ≤ 1000 * 0.10 :=
  ⟨by norm_num,
    position_sizing_capped 1000 0.9 LongShort.EnterLong 0.02 (by norm_num)⟩

/-- C5: calculate_drawdown updates the peak to the maximum of the stored
peak and the current capital (so the peak is monotonically non-decreasing
across calls), and, as long as the peak is positive, it reports a block
exactly when (peak - current) / peak * 100 is at least
max_drawdown_percent, the peak being the updated one. -/
theorem calculate_drawdown_spec (s : MaxDrawdownControl) (current_capital : ℚ)
    (h : 0 < s.peak_capital) :
    ((calculate_drawdown s current_capital).1).peak_capital =
      max s.peak_capital current_capital ∧
    s.peak_capital ≤ ((calculate_drawdown s current_capital).1).peak_capital ∧
    ((calculate_drawdown s current_capital).2 = true ↔
      (((calculate_drawdown s current_capital).1).peak_capital -
          current_capital) /
        ((calculate_drawdown s current_capital).1).peak_capital * 100 ≥
        s.max_drawdown_percent) := by
  have hmax : (if current_capital > s.peak_capital then current_capital
      else s.peak_capital) = max s.peak_capital current_capital := by
    rcases le_or_lt current_capital s.peak_capital with hle | hlt
    · rw [if_neg (not_lt.mpr hle), max_eq_left hle]
    · rw [if_pos hlt, max_eq_right hlt.le]
  have hpos : 0 < max s.peak_capital current_capital :=
    lt_of_lt_of_le h (le_max_left _ _)
  simp only [calculate_drawdown, hmax]
  refine ⟨trivial, le_max_left _ _, ?_⟩
  rw [if_pos hpos]
  split_ifs with hd
  · simp only [ge_iff_le, true_iff]
    exact hd
  · simp only [ge_iff_le, false_iff]
    exact hd

/-- C5 witness: with peak 10000, a 20 percent limit and current capital
7900, the drawdown (10000 - 7900) / 10000 * 100 = 21 reaches the limit and
the call reports a block. -/
theorem calculate_drawdown_spec_witness :
    (0 : ℚ) < 10000 ∧
    (calculate_drawdown ⟨10000, 20, 10000⟩ 7900).2 = true :=
  ⟨by norm_num,
    (calculate_drawdown_spec ⟨10000, 20, 10000⟩ 7900 (by norm_num)).2.2.mpr
      (by norm_num [calculate_drawdown])⟩

/-- C6: can_trade blocks (returns can_trade = false) exactly when the
absolute value of the summed negative mark-to-market P&L of the open trades
reaches max_daily_loss, and the remaining allowance is floored at 0; in the
scenario with limit 200 and three open trades marked at unrealized P&L
-50, -80 and -90, it returns current_loss 220, can_trade false and
remaining_allowance 0. -/
theorem can_trade_blocks_iff :
    (∀ (max_daily_loss : ℚ) (trades : List DLTrade)
        (priceOf : ℤ → Option ℚ),
      ((can_trade max_daily_loss trades priceOf).can_trade = false ↔
        |get_daily_loss trades priceOf| ≥ max_daily_loss) ∧
      0 ≤ (can_trade max_daily_loss trades priceOf).remaining_allowance) ∧
    get_daily_loss scenario_trades scenario_price = -220 ∧
    can_trade 200 scenario_trades scenario_price =
      ⟨false, 220, 0, 200⟩ := by
  refine ⟨?_, ?_, ?_⟩
  · intro max_daily_loss trades priceOf
    constructor
    · simp only [can_trade]
      split_ifs with hlt
      · simp only [Bool.true_eq_false, false_iff, ge_iff_le, not_le]
        exact hlt
      · simp only [ge_iff_le, true_iff]
        exact not_lt.mp hlt
    · simp only [can_trade]
      exact le_max_left _ _
  · norm_num [get_daily_loss, calculate_trade_pnl, scenario_trades,
      scenario_price]
  · have hloss : get_daily_loss scenario_trades scenario_price = -220 := by
      norm_num [get_daily_loss, calculate_trade_pnl, scenario_trades,
        scenario_price]
    simp only [can_trade, hloss]
    norm_num

/-- Helper for C7: a sum of squared deviations is nonnegative. -/
theorem svar_nonneg (xs : List ℚ) : 0 ≤ svar xs := by
  unfold svar scov
  rw [List.zipWith_same]
  apply List.sum_nonneg
  intro x hx
  simp only [List.mem_map] at hx
  obtain ⟨a, _, rfl⟩ := hx
  exact mul_self_nonneg _

/-- Helper for C7: on two identical series of at least 2 points with nonzero
variance, calculate_correlation returns exactly 1. -/
theorem calculate_correlation_self (xs : List ℚ) (h2 : 2 ≤ xs.length)
    (hv : svar xs ≠ 0) : calculate_correlation xs xs = 1 := by
  have hq : (0 : ℚ) < svar xs := lt_of_le_of_ne (svar_nonneg xs) (Ne.symm hv)
  have hr : (0 : ℝ) < ((svar xs : ℚ) : ℝ) := by exact_mod_cast hq
  have hshort : ¬(xs.length < 2 ∨ xs.length < 2) := by omega
  unfold calculate_correlation
  rw [if_neg hshort]
  simp only [ne_eq, not_true_eq_false, if_false]
  unfold np_corrcoef
  have hsq : Real.sqrt (((svar xs : ℚ) : ℝ) * ((svar xs : ℚ) : ℝ)) =
      ((svar xs : ℚ) : ℝ) := Real.sqrt_mul_self hr.le
  rw [show scov xs xs = svar xs from rfl, hsq, div_self hr.ne', abs_one]

/-- Helper for C7: fewer than 2 points in either series gives 0. -/
theorem calculate_correlation_short (xs ys : List ℚ)
    (h : xs.length < 2 ∨ ys.length < 2) : calculate_correlation xs ys = 0 := by
  unfold calculate_correlation
  rw [if_pos h]

/-- Helper for C7: on two series of at least 2 points the result is the
absolute Pearson coefficient of the right-aligned truncations to the
shorter length. -/
theorem calculate_correlation_unfold (p1 p2 : List ℚ) (h1 : 2 ≤ p1.length)
    (h2 : 2 ≤ p2.length) :
    calculate_correlation p1 p2 =
      |np_corrcoef (p1.drop (p1.length - min p1.length p2.length))
        (p2.drop (p2.length - min p1.length p2.length))| := by
  have hshort : ¬(p1.length < 2 ∨ p2.length < 2) := by omega
  unfold calculate_correlation
  rw [if_neg hshort]
  by_cases he : p1.length = p2.length
  · simp only [he, ne_eq, not_true_eq_false, if_false, min_self,
      Nat.sub_self, List.drop_zero]
  · simp only [ne_eq, he, not_false_eq_true, if_true]

/-- Helper for C7: calculate_correlation only ever compares the last
min-length elements of each series. -/
theorem calculate_correlation_truncation (p1 p2 : List ℚ) :
    calculate_correlation p1 p2 =
      calculate_correlation
        (p1.drop (p1.length - min p1.length p2.length))
        (p2.drop (p2.length - min p1.length p2.length)) := by
  by_cases h : p1.length < 2 ∨ p2.length < 2
  · have ht : (p1.drop (p1.length - min p1.length p2.length)).length < 2 ∨
        (p2.drop (p2.length - min p1.length p2.length)).length < 2 := by
      rw [List.length_drop, List.length_drop]
      omega
    rw [calculate_correlation_short _ _ h, calculate_correlation_short _ _ ht]
  · push_neg at h
    obtain ⟨h1, h2⟩ := h
    have l1 : (p1.drop (p1.length - min p1.length p2.length)).length =
        min p1.length p2.length := by
      rw [List.length_drop]
      omega
    have l2 : (p2.drop (p2.length - min p1.length p2.length)).length =
        min p1.length p2.length := by
      rw [List.length_drop]
      omega
    rw [calculate_correlation_unfold _ _ h1 h2,
      calculate_correlation_unfold _ _ (by rw [l1]; omega) (by rw [l2]; omega),
      l1, l2, min_self, Nat.sub_self, List.drop_zero, List.drop_zero]

/-- C7: calculate_correlation returns 1.0 on two identical series of at
least 2 points (with nonzero variance, so that the Pearson coefficient is
defined), for example on the series 1, 2, 3, 4 against itself; it returns
0.0 whenever either series has fewer than 2 points, for example on the
empty series against a 2-point series; and on every pair of series it
compares only the last min-length elements of each (right-aligned
truncation). -/
theorem calculate_correlation_spec :
    (∀ xs : List ℚ, 2 ≤ xs.length → svar xs ≠ 0 →
      calculate_correlation xs xs = 1) ∧
    calculate_correlation [1, 2, 3, 4] [1, 2, 3, 4] = 1 ∧
    (∀ xs ys : List ℚ, xs.length < 2 ∨ ys.length < 2 →
      calculate_correlation xs ys = 0) ∧
    calculate_correlation [] [1, 2] = 0 ∧
    (∀ p1 p2 : List ℚ, calculate_correlation p1 p2 = calculate_correlation
      (p1.drop (p1.length - min p1.length p2.length))
      (p2.drop (p2.length - min p1.length p2.length))) := by
  refine ⟨calculate_correlation_self, ?_, calculate_correlation_short, ?_,
    calculate_correlation_truncation⟩
  · exact calculate_correlation_self [1, 2, 3, 4] (by norm_num)
      (by norm_num [svar, scov, lmean])
  · exact calculate_correlation_short [] [1, 2] (Or.inl (by norm_num))

/-- C7 witness: the series 1, 2, 3, 4 has 4 points and variance 5, and the
correlation of the series with itself is exactly 1. -/
theorem calculate_correlation_spec_witness :
    2 ≤ ([1, 2, 3, 4] : List ℚ).length ∧ svar [1, 2, 3, 4] ≠ 0 ∧
    calculate_correlation [1, 2, 3, 4] [1, 2, 3, 4] = 1 :=
  ⟨by norm_num, by norm_num [svar, scov, lmean],
    calculate_correlation_spec.1 [1, 2, 3, 4] (by norm_num)
      (by norm_num [svar, scov, lmean])⟩
